import Mathlib

/-! Shallow embedding of src/proxy-server.py: a CORS proxy HTTP server built
on Python's http.server. Request paths, query strings and error messages are
lists of characters; response bodies are byte lists or carried messages. The
outbound fetch (urllib.request.urlopen) and the filesystem behind the static
file server are oracles passed to the handler, since the program only
observes their outcomes. -/

namespace ProxyServer

/-- Outcome of urllib.request.urlopen on the target URL: `success` when the
remote answers with a 2xx status (urlopen returns normally; the handler never
reads the status, only the body), `httpError` when the remote answers with a
non-2xx status (urlopen raises HTTPError(code), whose string representation
is carried as `msg`), `urlError` for a network-level failure (URLError:
DNS failure, connection refused, timeout), and `otherError` for any other
exception raised while proxying; `msg` carries the exception's string
representation. -/
inductive FetchOutcome where
  | success (remoteStatus : Nat) (body : List Nat)
  | httpError (code : Nat) (msg : List Char)
  | urlError (msg : List Char)
  | otherError (msg : List Char)

/-- Body of an HTTP response: raw bytes (a proxied or static file body), an
error message as rendered by send_error (we model the message it carries, not
the HTML page it is embedded in), or no body at all. -/
inductive Body where
  | bytes (b : List Nat)
  | message (m : List Char)
  | empty
deriving DecidableEq

/-- An inbound HTTP request: its method and its raw path, which includes the
query string (Python's BaseHTTPRequestHandler.path). -/
structure Request where
  method : String
  path : List Char

/-- An HTTP response as the handler emits it: status code, the headers the
handler sends explicitly plus the end_headers injection, and the body.
(The Server, Date and Content-Length headers, fixed boilerplate attached to
every response by the standard library, are not modelled.) -/
structure Response where
  status : Nat
  headers : List (String × String)
  body : Body
deriving DecidableEq

/-- Header Access-Control-Allow-Origin: * as the code sends it. -/
def acaoH : String × String := ("Access-Control-Allow-Origin", "*")

/-- Header Access-Control-Allow-Methods: GET, OPTIONS as the code sends it. -/
def acamH : String × String := ("Access-Control-Allow-Methods", "GET, OPTIONS")

/-- Header Access-Control-Allow-Headers: Content-Type as the code sends it. -/
def acahH : String × String := ("Access-Control-Allow-Headers", "Content-Type")

/-- The hardcoded content type of a successful proxy response. -/
def ctXmlH : String × String := ("Content-Type", "text/xml; charset=utf-8")

/-- Content type sent by BaseHTTPRequestHandler.send_error
(error_content_type). -/
def ctErrH : String × String := ("Content-Type", "text/html;charset=utf-8")

/-- Connection: close, sent by BaseHTTPRequestHandler.send_error. -/
def connCloseH : String × String := ("Connection", "close")

/-- The literal the do_GET dispatcher tests with str.startswith. -/
def proxyRoute : List Char := "/proxy?url=".toList

/-- The shorter literal the overridden end_headers tests with
str.startswith. -/
def proxyPathPre : List Char := "/proxy".toList

/-- The query parameter name the proxy forwarder reads. -/
def urlKey : List Char := "url".toList

/-- Python's str.startswith, on character lists. -/
def startsWith (p s : List Char) : Bool := p.isPrefixOf s

/-- Hex digits accepted by urllib's percent-decoder. -/
def isHexDigit (c : Char) : Bool :=
  (decide ('0' ≤ c) && decide (c ≤ '9')) ||
    (decide ('a' ≤ c) && decide (c ≤ 'f')) ||
      (decide ('A' ≤ c) && decide (c ≤ 'F'))

/-- Numeric value of a hex digit (only applied under isHexDigit). -/
def hexVal (c : Char) : Nat :=
  if decide ('0' ≤ c) && decide (c ≤ '9') then c.toNat - '0'.toNat
  else if decide ('a' ≤ c) && decide (c ≤ 'f') then c.toNat - 'a'.toNat + 10
  else c.toNat - 'A'.toNat + 10

/-- Python's str.split(sep) for a one-character separator: splits at every
occurrence and keeps empty pieces (so splitting the empty string yields
one empty piece, as in Python). -/
def splitOn (sep : Char) : List Char → List (List Char)
  | [] => [[]]
  | c :: rest =>
    match splitOn sep rest with
    | [] => [[]]
    | h :: t => if c == sep then [] :: h :: t else (c :: h) :: t

/-- One piece of urllib.parse.unquote's work: the text that followed a '%'.
When it opens with two hex digits they decode to the character with that byte
value; otherwise the escape is invalid and the '%' is kept literally. -/
def unquotePiece (item : List Char) : List Char :=
  match item with
  | a :: b :: rest =>
    if isHexDigit a && isHexDigit b then
      Char.ofNat (16 * hexVal a + hexVal b) :: rest
    else '%' :: item
  | _ => '%' :: item

/-- Models urllib.parse.unquote, following CPython's algorithm: split on '%',
keep the first piece verbatim, decode the opening escape of every later
piece. (Python assembles the percent-escaped bytes and decodes them as UTF-8;
for the ASCII range the two coincide, and no claim involves multi-byte
escapes.) -/
def unquote (s : List Char) : List Char :=
  match splitOn '%' s with
  | [] => []
  | first :: items => first ++ (items.map unquotePiece).flatten

/-- Models urllib.parse.unquote_plus as parse_qsl applies it to each name and
value: every '+' is replaced by a space, then the string is percent-decoded. -/
def unquote_plus (s : List Char) : List Char :=
  unquote (s.map (fun c => if c = '+' then ' ' else c))

/-- Python's s.split(sep, 1) for sep = '=': `some (before, after)` at the
first '=', or `none` when the field has no '='. -/
def splitEq1 : List Char → Option (List Char × List Char)
  | [] => none
  | c :: rest =>
    if c == '=' then some ([], rest)
    else
      match splitEq1 rest with
      | none => none
      | some (n, v) => some (c :: n, v)

/-- Models urllib.parse.parse_qs with its default arguments
(keep_blank_values=False, separator='&'): the query is split on '&'; empty
fields, fields without '=', and fields whose raw value is empty are dropped;
names and values are percent-decoded. The result is the ordered list of
(name, value) pairs; parse_qs groups them into a dict of value lists, which
`getFirst` below reads back (the first value listed under a name is the first
retained pair carrying that name). -/
def parse_qs (query : List Char) : List (List Char × List Char) :=
  (splitOn '&' query).filterMap (fun field =>
    if field = [] then none
    else
      match splitEq1 field with
      | none => none
      | some (n, v) =>
        if v = [] then none
        else some (unquote_plus n, unquote_plus v))

/-- Models params.get(name, [''])[0] over the dict parse_qs builds: the first
retained value under `name`, or the empty string when there is none. -/
def getFirst (name : List Char) (pairs : List (List Char × List Char)) :
    List Char :=
  match pairs.find? (fun p => p.fst == name) with
  | some p => p.snd
  | none => []

/-- Models self.path.split('?', 1)[1]: the text after the first '?'. The one
caller, handle_proxy_request, is only reached when the path starts with
"/proxy?url=", so a '?' is always present; on a '?'-free list this returns
the empty string (Python would raise IndexError, a case the guard in do_GET
makes unreachable). -/
def queryString : List Char → List Char
  | [] => []
  | c :: rest => if c == '?' then rest else queryString rest

/-- The decoded target URL extracted from the request path, exactly as
handle_proxy_request computes it. -/
def targetUrl (path : List Char) : List Char :=
  getFirst urlKey (parse_qs (queryString path))

/-- Models the overridden end_headers: a response whose request path does NOT
start with "/proxy" gets one extra Access-Control-Allow-Origin header; the
response constructions below append this to the headers their handler sent
explicitly before calling end_headers. -/
def endHeadersExtra (path : List Char) : List (String × String) :=
  if startsWith proxyPathPre path then [] else [acaoH]

/-- Models BaseHTTPRequestHandler.send_error(code, msg) at the level the
program observes: the given status, the generic error headers, the overridden
end_headers injection, and `msg` as the body. (send_error embeds the message
in an HTML error page and suppresses the page entirely for statuses
204/205/304; we model the carried message.) -/
def send_error (path : List Char) (code : Nat) (msg : List Char) : Response :=
  { status := code,
    headers := [ctErrH, connCloseH] ++ endHeadersExtra path,
    body := .message msg }

/-- Models handle_proxy_request: take everything after the first '?', run it
through parse_qs, take the first url value; if it is empty, answer 400
"Missing url parameter" without consulting the fetch oracle; otherwise
perform the outbound fetch (the oracle stands for urllib.request.urlopen on
the Request with the fixed User-Agent header and 30-second timeout) and
translate its outcome exactly as the try/except does. -/
def handle_proxy_request (fetch : List Char → FetchOutcome)
    (path : List Char) : Response :=
  let target := targetUrl path
  if target = [] then send_error path 400 "Missing url parameter".toList
  else
    match fetch target with
    | .success _ content =>
      { status := 200,
        headers := [ctXmlH, acaoH, acamH, acahH] ++ endHeadersExtra path,
        body := .bytes content }
    | .httpError code msg => send_error path code msg
    | .urlError msg => send_error path 502 ("Failed to fetch: ".toList ++ msg)
    | .otherError msg => send_error path 500 ("Server error: ".toList ++ msg)

/-- Models SimpleHTTPRequestHandler.do_GET (standard library), to which
non-proxy requests are delegated. The filesystem oracle abstracts path
translation against the working directory: `some (mime, content)` when the
request path resolves to a servable file, answered 200 with the guessed
Content-Type and the file's bytes; `none` otherwise, answered 404
"File not found" through send_error. Both paths run through the overridden
end_headers. Directory redirects and conditional requests touch no claim and
are not modelled. -/
def staticServe (fs : List Char → Option (String × List Nat))
    (path : List Char) : Response :=
  match fs path with
  | some (mime, content) =>
    { status := 200,
      headers := [("Content-Type", mime)] ++ endHeadersExtra path,
      body := .bytes content }
  | none => send_error path 404 "File not found".toList

/-- Models do_GET: proxy when the path starts with the literal "/proxy?url=",
otherwise static file serving. -/
def do_GET (fetch : List Char → FetchOutcome)
    (fs : List Char → Option (String × List Nat)) (path : List Char) :
    Response :=
  if startsWith proxyRoute path then handle_proxy_request fetch path
  else staticServe fs path

/-- Models do_OPTIONS: status 200, the three CORS headers, the overridden
end_headers injection, and no body, for every path. -/
def do_OPTIONS (path : List Char) : Response :=
  { status := 200,
    headers := [acaoH, acamH, acahH] ++ endHeadersExtra path,
    body := .empty }

/-- Request dispatch of BaseHTTPRequestHandler: the method name selects
do_OPTIONS or do_GET; a request with any other method is answered 501
"Unsupported method (...)" through send_error. -/
def handleRequest (fetch : List Char → FetchOutcome)
    (fs : List Char → Option (String × List Nat)) (req : Request) :
    Response :=
  if req.method = "OPTIONS" then do_OPTIONS req.path
  else if req.method = "GET" then do_GET fetch fs req.path
  else
    send_error req.path 501
      ("Unsupported method (".toList ++ req.method.toList ++ ")".toList)

/-- The serve_forever loop: requests are accepted one at a time and each is
handled by handleRequest; no state is carried from one request to the next. -/
def serveAll (fetch : List Char → FetchOutcome)
    (fs : List Char → Option (String × List Nat)) (reqs : List Request) :
    List Response :=
  reqs.map (handleRequest fetch fs)

/-- Modelled from the spec (section 4.2), for comparison with `targetUrl`:
"the first url-named query parameter's decoded value is the Target URL".
Fields are split on '&' and decoded WITHOUT dropping blank values (a field
without '=' counts as a parameter with an empty value); the result is the
decoded value of the first field named url, or the empty string when there is
none. -/
def specTargetUrl (query : List Char) : List Char :=
  getFirst urlKey
    ((splitOn '&' query).filterMap (fun field =>
      if field = [] then none
      else
        match splitEq1 field with
        | none => some (unquote_plus field, [])
        | some (n, v) => some (unquote_plus n, unquote_plus v)))

/-! Helper lemmas about the path predicates. -/

/-- List.isPrefixOf is transitive. -/
theorem isPrefixOf_trans {p q s : List Char} (h1 : p.isPrefixOf q = true)
    (h2 : q.isPrefixOf s = true) : p.isPrefixOf s = true := by
  simp at h1 h2 ⊢
  exact h1.trans h2

/-- A list is an isPrefixOf of itself followed by anything. -/
theorem isPrefixOf_append_self (l m : List Char) :
    l.isPrefixOf (l ++ m) = true := by
  simp

/-- A path on the proxy route ("/proxy?url=...") in particular starts with
"/proxy", the test the overridden end_headers performs. -/
theorem startsWith_route_pre {s : List Char}
    (h : startsWith proxyRoute s = true) : startsWith proxyPathPre s = true :=
  isPrefixOf_trans (p := proxyPathPre) (by decide) h

/-- A path that does not start with "/proxy" is not on the proxy route. -/
theorem not_pre_not_route {s : List Char}
    (h : startsWith proxyPathPre s = false) : startsWith proxyRoute s = false := by
  cases hr : startsWith proxyRoute s with
  | false => rfl
  | true => rw [startsWith_route_pre hr] at h; cases h

/-! Claim theorems. -/

/-- C1: for every GET request to the proxy route with a non-empty url
parameter, if the outbound fetch of the target URL completes without protocol
error (any remote status the client library accepts), the relayed response
has status 200 regardless of the remote's actual status, the hardcoded
Content-Type text/xml; charset=utf-8, exactly the three CORS headers, and a
body byte-for-byte equal to the remote response body. -/
theorem c1_proxy_success (fetch : List Char → FetchOutcome)
    (fs : List Char → Option (String × List Nat)) (path : List Char)
    (remoteStatus : Nat) (content : List Nat)
    (hroute : startsWith proxyRoute path = true)
    (hurl : targetUrl path ≠ [])
    (hfetch : fetch (targetUrl path) = .success remoteStatus content) :
    handleRequest fetch fs ⟨"GET", path⟩ =
      { status := 200,
        headers := [ctXmlH, acaoH, acamH, acahH],
        body := .bytes content } := by
  have hpre := startsWith_route_pre hroute
  simp [handleRequest, do_GET, handle_proxy_request, hroute, hurl, hfetch,
    endHeadersExtra, hpre]

/-- C1 witness: a concrete proxy-route request whose fetch answers a 204 with
body bytes [60, 63] is relayed as a 200 with those bytes. -/
theorem c1_proxy_success_witness :
    startsWith proxyRoute "/proxy?url=http://a".toList = true ∧
    targetUrl "/proxy?url=http://a".toList ≠ [] ∧
    handleRequest (fun _ => .success 204 [60, 63]) (fun _ => none)
        ⟨"GET", "/proxy?url=http://a".toList⟩ =
      { status := 200,
        headers := [ctXmlH, acaoH, acamH, acahH],
        body := .bytes [60, 63] } :=
  ⟨by decide, by decide,
    c1_proxy_success (fun _ => .success 204 [60, 63]) (fun _ => none)
      "/proxy?url=http://a".toList 204 [60, 63] (by decide) (by decide) rfl⟩

/-- C5: every OPTIONS request, whatever its path, is answered with status
200, an empty body, and all three CORS headers present. -/
theorem c5_options (fetch : List Char → FetchOutcome)
    (fs : List Char → Option (String × List Nat)) (path : List Char) :
    (handleRequest fetch fs ⟨"OPTIONS", path⟩).status = 200 ∧
    (handleRequest fetch fs ⟨"OPTIONS", path⟩).body = .empty ∧
    acaoH ∈ (handleRequest fetch fs ⟨"OPTIONS", path⟩).headers ∧
    acamH ∈ (handleRequest fetch fs ⟨"OPTIONS", path⟩).headers ∧
    acahH ∈ (handleRequest fetch fs ⟨"OPTIONS", path⟩).headers := by
  simp [handleRequest, do_OPTIONS]

/-- C2 counterexample: in "/proxy?url=&url=http://x" the first url-named
query parameter decodes to the empty string — the spec's Target URL
(specTargetUrl) is empty — yet the handler, whose parse_qs drops blank
values, fetches the second url value and answers 200, not 400, and the
outcome depends on the fetch oracle. -/
theorem c2_counterexample :
    specTargetUrl (queryString "/proxy?url=&url=http://x".toList) = [] ∧
    (handleRequest (fun _ => .success 200 [60]) (fun _ => none)
        ⟨"GET", "/proxy?url=&url=http://x".toList⟩).status = 200 := by
  decide

/-- C2 amended: for every GET request whose path starts with the proxy-route
literal "/proxy?url=" and whose query carries no url parameter with a
non-empty value (parse_qs drops blank values, so the extracted target is then
empty), the response is exactly the 400 "Missing url parameter" error and is
independent of the fetch oracle: no outbound fetch is performed. -/
theorem c2_missing_url (fetch fetch2 : List Char → FetchOutcome)
    (fs : List Char → Option (String × List Nat)) (path : List Char)
    (hroute : startsWith proxyRoute path = true)
    (hempty : targetUrl path = []) :
    handleRequest fetch fs ⟨"GET", path⟩ =
      send_error path 400 "Missing url parameter".toList ∧
    handleRequest fetch fs ⟨"GET", path⟩ =
      handleRequest fetch2 fs ⟨"GET", path⟩ := by
  constructor
  · simp [handleRequest, do_GET, handle_proxy_request, hroute, hempty]
  · simp [handleRequest, do_GET, handle_proxy_request, hroute, hempty]

/-- C2 witness: the request "/proxy?url=" (url present but blank) is answered
400 whatever the fetch oracle would have said. -/
theorem c2_missing_url_witness :
    startsWith proxyRoute "/proxy?url=".toList = true ∧
    targetUrl "/proxy?url=".toList = [] ∧
    (handleRequest (fun _ => .success 200 [60]) (fun _ => none)
        ⟨"GET", "/proxy?url=".toList⟩ =
      send_error "/proxy?url=".toList 400 "Missing url parameter".toList ∧
    handleRequest (fun _ => .success 200 [60]) (fun _ => none)
        ⟨"GET", "/proxy?url=".toList⟩ =
      handleRequest (fun _ => .httpError 404 []) (fun _ => none)
        ⟨"GET", "/proxy?url=".toList⟩) :=
  ⟨by decide, by decide,
    c2_missing_url (fun _ => .success 200 [60]) (fun _ => .httpError 404 [])
      (fun _ => none) "/proxy?url=".toList (by decide) (by decide)⟩

/-- C3: when the remote returns a non-2xx status, urlopen raises HTTPError
and the handler relays that exact status with the error's string
representation as the carried message; the response is built by send_error,
whose end_headers injection is skipped for /proxy-prefixed paths, so it
carries none of the three CORS headers. -/
theorem c3_relay_remote_error (fetch : List Char → FetchOutcome)
    (fs : List Char → Option (String × List Nat)) (path : List Char)
    (code : Nat) (msg : List Char)
    (hroute : startsWith proxyRoute path = true)
    (hurl : targetUrl path ≠ [])
    (hfetch : fetch (targetUrl path) = .httpError code msg) :
    (handleRequest fetch fs ⟨"GET", path⟩).status = code ∧
    (handleRequest fetch fs ⟨"GET", path⟩).body = .message msg ∧
    (handleRequest fetch fs ⟨"GET", path⟩).headers = [ctErrH, connCloseH] ∧
    acaoH ∉ (handleRequest fetch fs ⟨"GET", path⟩).headers ∧
    acamH ∉ (handleRequest fetch fs ⟨"GET", path⟩).headers ∧
    acahH ∉ (handleRequest fetch fs ⟨"GET", path⟩).headers := by
  have hpre := startsWith_route_pre hroute
  have hr : handleRequest fetch fs ⟨"GET", path⟩ =
      { status := code, headers := [ctErrH, connCloseH], body := .message msg } := by
    simp [handleRequest, do_GET, handle_proxy_request, hroute, hurl, hfetch,
      send_error, endHeadersExtra, hpre]
  rw [hr]
  refine ⟨rfl, rfl, rfl, ?_, ?_, ?_⟩ <;>
    simp [acaoH, acamH, acahH, ctErrH, connCloseH]

/-- C3 witness: a remote 404 ("HTTP Error 404: Not Found") is relayed as a
404 whose response carries no CORS headers. -/
theorem c3_relay_remote_error_witness :
    startsWith proxyRoute "/proxy?url=http://a".toList = true ∧
    targetUrl "/proxy?url=http://a".toList ≠ [] ∧
    ((handleRequest (fun _ => .httpError 404 "HTTP Error 404: Not Found".toList)
        (fun _ => none) ⟨"GET", "/proxy?url=http://a".toList⟩).status = 404 ∧
      acaoH ∉ (handleRequest (fun _ => .httpError 404 "HTTP Error 404: Not Found".toList)
        (fun _ => none) ⟨"GET", "/proxy?url=http://a".toList⟩).headers) := by
  have h := c3_relay_remote_error
    (fun _ => .httpError 404 "HTTP Error 404: Not Found".toList) (fun _ => none)
    "/proxy?url=http://a".toList 404 "HTTP Error 404: Not Found".toList
    (by decide) (by decide) rfl
  exact ⟨by decide, by decide, h.1, h.2.2.2.1⟩

/-- C4: on the proxy route, a network-level failure (URLError) is answered
502 with a message beginning "Failed to fetch", and any other unexpected
exception is answered 500 with message "Server error: " followed by the
exception's description. -/
theorem c4_fetch_failures (fs : List Char → Option (String × List Nat))
    (path : List Char)
    (hroute : startsWith proxyRoute path = true)
    (hurl : targetUrl path ≠ []) :
    (∀ (fetch : List Char → FetchOutcome) (msg : List Char),
      fetch (targetUrl path) = .urlError msg →
        (handleRequest fetch fs ⟨"GET", path⟩).status = 502 ∧
        (handleRequest fetch fs ⟨"GET", path⟩).body =
          .message ("Failed to fetch: ".toList ++ msg) ∧
        "Failed to fetch".toList.isPrefixOf ("Failed to fetch: ".toList ++ msg) = true) ∧
    (∀ (fetch : List Char → FetchOutcome) (msg : List Char),
      fetch (targetUrl path) = .otherError msg →
        (handleRequest fetch fs ⟨"GET", path⟩).status = 500 ∧
        (handleRequest fetch fs ⟨"GET", path⟩).body =
          .message ("Server error: ".toList ++ msg)) := by
  constructor
  · intro fetch msg hfetch
    refine ⟨?_, ?_, ?_⟩
    · simp [handleRequest, do_GET, handle_proxy_request, hroute, hurl, hfetch,
        send_error]
    · simp [handleRequest, do_GET, handle_proxy_request, hroute, hurl, hfetch,
        send_error]
    · exact isPrefixOf_trans (by decide) (isPrefixOf_append_self _ _)
  · intro fetch msg hfetch
    constructor
    · simp [handleRequest, do_GET, handle_proxy_request, hroute, hurl, hfetch,
        send_error]
    · simp [handleRequest, do_GET, handle_proxy_request, hroute, hurl, hfetch,
        send_error]

/-- C4 witness: concrete network failure and internal failure on the proxy
route yield 502 "Failed to fetch: ..." and 500 "Server error: ...". -/
theorem c4_fetch_failures_witness :
    startsWith proxyRoute "/proxy?url=http://a".toList = true ∧
    targetUrl "/proxy?url=http://a".toList ≠ [] ∧
    (handleRequest (fun _ => .urlError "timed out".toList) (fun _ => none)
        ⟨"GET", "/proxy?url=http://a".toList⟩).status = 502 ∧
    (handleRequest (fun _ => .otherError "boom".toList) (fun _ => none)
        ⟨"GET", "/proxy?url=http://a".toList⟩).status = 500 := by
  have h := c4_fetch_failures (fun _ => none) "/proxy?url=http://a".toList
    (by decide) (by decide)
  exact ⟨by decide, by decide,
    (h.1 (fun _ => .urlError "timed out".toList) "timed out".toList rfl).1,
    (h.2 (fun _ => .otherError "boom".toList) "boom".toList rfl).1⟩

/-- C6 counterexample: the static response for "/a" (an existing file)
carries only the injected Access-Control-Allow-Origin, not
Access-Control-Allow-Methods, so not every response carries all three CORS
headers. -/
theorem c6_counterexample :
    acamH ∉ (handleRequest (fun _ => .success 200 [])
        (fun _ => some ("text/html", [60])) ⟨"GET", "/a".toList⟩).headers := by
  decide

/-- C6 amended: every preflight (OPTIONS) response and every proxy-success
response carries all three CORS headers; a static response for a path
outside the /proxy prefix carries the injected Access-Control-Allow-Origin.
(Static responses do not receive the other two headers, and proxy-route
error responses receive none.) -/
theorem c6_cors_policy (fetch : List Char → FetchOutcome)
    (fs : List Char → Option (String × List Nat)) :
    (∀ path : List Char,
      acaoH ∈ (handleRequest fetch fs ⟨"OPTIONS", path⟩).headers ∧
      acamH ∈ (handleRequest fetch fs ⟨"OPTIONS", path⟩).headers ∧
      acahH ∈ (handleRequest fetch fs ⟨"OPTIONS", path⟩).headers) ∧
    (∀ (path : List Char) (s : Nat) (b : List Nat),
      startsWith proxyRoute path = true → targetUrl path ≠ [] →
      fetch (targetUrl path) = .success s b →
        acaoH ∈ (handleRequest fetch fs ⟨"GET", path⟩).headers ∧
        acamH ∈ (handleRequest fetch fs ⟨"GET", path⟩).headers ∧
        acahH ∈ (handleRequest fetch fs ⟨"GET", path⟩).headers) ∧
    (∀ (path : List Char) (m : String) (b : List Nat),
      startsWith proxyPathPre path = false → fs path = some (m, b) →
        acaoH ∈ (handleRequest fetch fs ⟨"GET", path⟩).headers) := by
  refine ⟨?_, ?_, ?_⟩
  · intro path
    simp [handleRequest, do_OPTIONS]
  · intro path s b hroute hurl hfetch
    simp [handleRequest, do_GET, handle_proxy_request, hroute, hurl, hfetch]
  · intro path m b hpre hfs
    have hroute := not_pre_not_route hpre
    simp [handleRequest, do_GET, staticServe, hroute, hfs, endHeadersExtra, hpre]

/-- C6 amended witness: the three conjuncts exercised at concrete requests —
an OPTIONS, a successful proxied GET, and a static GET. -/
theorem c6_cors_policy_witness :
    (acaoH ∈ (handleRequest (fun _ => .success 200 [7]) (fun _ => some ("text/html", [60]))
        ⟨"OPTIONS", "/a".toList⟩).headers) ∧
    (startsWith proxyRoute "/proxy?url=http://a".toList = true ∧
      targetUrl "/proxy?url=http://a".toList ≠ [] ∧
      acamH ∈ (handleRequest (fun _ => .success 200 [7]) (fun _ => some ("text/html", [60]))
        ⟨"GET", "/proxy?url=http://a".toList⟩).headers) ∧
    (startsWith proxyPathPre "/a".toList = false ∧
      acaoH ∈ (handleRequest (fun _ => .success 200 [7]) (fun _ => some ("text/html", [60]))
        ⟨"GET", "/a".toList⟩).headers) := by
  have h := c6_cors_policy (fun _ => .success 200 [7]) (fun _ => some ("text/html", [60]))
  exact ⟨(h.1 "/a".toList).1,
    ⟨by decide, by decide,
      (h.2.1 "/proxy?url=http://a".toList 200 [7] (by decide) (by decide) rfl).2.1⟩,
    ⟨by decide, h.2.2 "/a".toList "text/html" [60] (by decide) rfl⟩⟩

/-- C7 counterexample: a network failure on the proxy route is answered 502
WITHOUT any CORS header — the generic injection is keyed off the path prefix
"/proxy", which this request matches, so it is skipped, contrary to the
claim that the 502 path still receives the injection. -/
theorem c7_counterexample :
    (handleRequest (fun _ => .urlError "refused".toList) (fun _ => none)
        ⟨"GET", "/proxy?url=http://a".toList⟩).status = 502 ∧
    acaoH ∉ (handleRequest (fun _ => .urlError "refused".toList) (fun _ => none)
        ⟨"GET", "/proxy?url=http://a".toList⟩).headers := by
  decide

/-- C7 amended: the generic CORS injection is keyed off the path prefix
"/proxy", which every proxy-route request matches, so the network-failure
(502) and internal-error (500) responses bypass CORS header injection
exactly like the remote-non-2xx relay path: no proxy-route error response
carries any of the three CORS headers. -/
theorem c7_error_paths_no_cors (fs : List Char → Option (String × List Nat))
    (path : List Char)
    (hroute : startsWith proxyRoute path = true)
    (hurl : targetUrl path ≠ []) :
    (∀ (fetch : List Char → FetchOutcome) (msg : List Char),
      fetch (targetUrl path) = .urlError msg →
        (handleRequest fetch fs ⟨"GET", path⟩).status = 502 ∧
        acaoH ∉ (handleRequest fetch fs ⟨"GET", path⟩).headers ∧
        acamH ∉ (handleRequest fetch fs ⟨"GET", path⟩).headers ∧
        acahH ∉ (handleRequest fetch fs ⟨"GET", path⟩).headers) ∧
    (∀ (fetch : List Char → FetchOutcome) (msg : List Char),
      fetch (targetUrl path) = .otherError msg →
        (handleRequest fetch fs ⟨"GET", path⟩).status = 500 ∧
        acaoH ∉ (handleRequest fetch fs ⟨"GET", path⟩).headers ∧
        acamH ∉ (handleRequest fetch fs ⟨"GET", path⟩).headers ∧
        acahH ∉ (handleRequest fetch fs ⟨"GET", path⟩).headers) := by
  have hpre := startsWith_route_pre hroute
  constructor
  · intro fetch msg hfetch
    have hr : handleRequest fetch fs ⟨"GET", path⟩ =
        { status := 502, headers := [ctErrH, connCloseH],
          body := .message ("Failed to fetch: ".toList ++ msg) } := by
      simp [handleRequest, do_GET, handle_proxy_request, hroute, hurl, hfetch,
        send_error, endHeadersExtra, hpre]
    rw [hr]
    refine ⟨rfl, ?_, ?_, ?_⟩ <;> simp [acaoH, acamH, acahH, ctErrH, connCloseH]
  · intro fetch msg hfetch
    have hr : handleRequest fetch fs ⟨"GET", path⟩ =
        { status := 500, headers := [ctErrH, connCloseH],
          body := .message ("Server error: ".toList ++ msg) } := by
      simp [handleRequest, do_GET, handle_proxy_request, hroute, hurl, hfetch,
        send_error, endHeadersExtra, hpre]
    rw [hr]
    refine ⟨rfl, ?_, ?_, ?_⟩ <;> simp [acaoH, acamH, acahH, ctErrH, connCloseH]

/-- C7 amended witness: concrete 502 and 500 responses on the proxy route
carry no Access-Control-Allow-Origin header. -/
theorem c7_error_paths_no_cors_witness :
    startsWith proxyRoute "/proxy?url=http://a".toList = true ∧
    targetUrl "/proxy?url=http://a".toList ≠ [] ∧
    acaoH ∉ (handleRequest (fun _ => .urlError "refused".toList) (fun _ => none)
        ⟨"GET", "/proxy?url=http://a".toList⟩).headers ∧
    acaoH ∉ (handleRequest (fun _ => .otherError "boom".toList) (fun _ => none)
        ⟨"GET", "/proxy?url=http://a".toList⟩).headers := by
  have h := c7_error_paths_no_cors (fun _ => none) "/proxy?url=http://a".toList
    (by decide) (by decide)
  exact ⟨by decide, by decide,
    (h.1 (fun _ => .urlError "refused".toList) "refused".toList rfl).2.1,
    (h.2 (fun _ => .otherError "boom".toList) "boom".toList rfl).2.1⟩

/-- C8: a GET to a path outside the /proxy prefix is delegated to the static
file server: when the path resolves to a file, the response is a 200 whose
body is the file's bytes and whose headers include the injected
Access-Control-Allow-Origin; when it does not, the response is a 404. -/
theorem c8_static_files (fetch : List Char → FetchOutcome)
    (fs : List Char → Option (String × List Nat)) (path : List Char)
    (hpre : startsWith proxyPathPre path = false) :
    (∀ (mime : String) (content : List Nat), fs path = some (mime, content) →
      (handleRequest fetch fs ⟨"GET", path⟩).status = 200 ∧
      (handleRequest fetch fs ⟨"GET", path⟩).body = .bytes content ∧
      acaoH ∈ (handleRequest fetch fs ⟨"GET", path⟩).headers) ∧
    (fs path = none → (handleRequest fetch fs ⟨"GET", path⟩).status = 404) := by
  have hroute := not_pre_not_route hpre
  constructor
  · intro mime content hfs
    simp [handleRequest, do_GET, staticServe, hroute, hfs, endHeadersExtra, hpre]
  · intro hfs
    simp [handleRequest, do_GET, staticServe, hroute, hfs, send_error]

/-- C8 witness: a concrete existing file is served 200 with its bytes and the
allow-origin header, and a concrete missing file is answered 404. -/
theorem c8_static_files_witness :
    startsWith proxyPathPre "/index.html".toList = false ∧
    ((handleRequest (fun _ => .success 200 []) (fun _ => some ("text/html", [60, 33]))
        ⟨"GET", "/index.html".toList⟩).status = 200 ∧
      (handleRequest (fun _ => .success 200 []) (fun _ => some ("text/html", [60, 33]))
        ⟨"GET", "/index.html".toList⟩).body = .bytes [60, 33] ∧
      acaoH ∈ (handleRequest (fun _ => .success 200 []) (fun _ => some ("text/html", [60, 33]))
        ⟨"GET", "/index.html".toList⟩).headers) ∧
    (handleRequest (fun _ => .success 200 []) (fun _ => none)
        ⟨"GET", "/index.html".toList⟩).status = 404 :=
  ⟨by decide,
    (c8_static_files (fun _ => .success 200 []) (fun _ => some ("text/html", [60, 33]))
      "/index.html".toList (by decide)).1 "text/html" [60, 33] rfl,
    (c8_static_files (fun _ => .success 200 []) (fun _ => none)
      "/index.html".toList (by decide)).2 rfl⟩

/-- C9: exceptions during proxying are caught and turned into an error
response for that request alone — HTTPError into the relayed status,
URLError into 502, anything else into 500 — and request handling is
stateless: in the serve loop each response is a function of its own request
only, unaffected by the requests served before or after it. -/
theorem c9_errors_isolated (fetch : List Char → FetchOutcome)
    (fs : List Char → Option (String × List Nat)) (path : List Char)
    (hroute : startsWith proxyRoute path = true)
    (hurl : targetUrl path ≠ []) :
    (∀ (code : Nat) (msg : List Char),
      fetch (targetUrl path) = .httpError code msg →
        (handleRequest fetch fs ⟨"GET", path⟩).status = code) ∧
    (∀ msg : List Char, fetch (targetUrl path) = .urlError msg →
        (handleRequest fetch fs ⟨"GET", path⟩).status = 502) ∧
    (∀ msg : List Char, fetch (targetUrl path) = .otherError msg →
        (handleRequest fetch fs ⟨"GET", path⟩).status = 500) ∧
    (∀ (reqs1 reqs2 : List Request) (r : Request),
      serveAll fetch fs (reqs1 ++ r :: reqs2) =
        serveAll fetch fs reqs1 ++
          handleRequest fetch fs r :: serveAll fetch fs reqs2) := by
  refine ⟨?_, ?_, ?_, ?_⟩
  · intro code msg hfetch
    simp [handleRequest, do_GET, handle_proxy_request, hroute, hurl, hfetch,
      send_error]
  · intro msg hfetch
    simp [handleRequest, do_GET, handle_proxy_request, hroute, hurl, hfetch,
      send_error]
  · intro msg hfetch
    simp [handleRequest, do_GET, handle_proxy_request, hroute, hurl, hfetch,
      send_error]
  · intro reqs1 reqs2 r
    simp [serveAll]

/-- C9 witness: each exceptional outcome mapped on a concrete request, and a
concrete three-request serve loop splitting around its middle request. -/
theorem c9_errors_isolated_witness :
    startsWith proxyRoute "/proxy?url=http://a".toList = true ∧
    targetUrl "/proxy?url=http://a".toList ≠ [] ∧
    (handleRequest (fun _ => .httpError 403 "HTTP Error 403: Forbidden".toList)
        (fun _ => none) ⟨"GET", "/proxy?url=http://a".toList⟩).status = 403 ∧
    serveAll (fun _ => .httpError 403 "HTTP Error 403: Forbidden".toList) (fun _ => none)
        ([⟨"OPTIONS", "/a".toList⟩] ++ ⟨"GET", "/proxy?url=http://a".toList⟩ ::
          [⟨"GET", "/b".toList⟩]) =
      serveAll (fun _ => .httpError 403 "HTTP Error 403: Forbidden".toList) (fun _ => none)
          [⟨"OPTIONS", "/a".toList⟩] ++
        handleRequest (fun _ => .httpError 403 "HTTP Error 403: Forbidden".toList)
          (fun _ => none) ⟨"GET", "/proxy?url=http://a".toList⟩ ::
          serveAll (fun _ => .httpError 403 "HTTP Error 403: Forbidden".toList)
            (fun _ => none) [⟨"GET", "/b".toList⟩] := by
  have h := c9_errors_isolated (fun _ => .httpError 403 "HTTP Error 403: Forbidden".toList)
    (fun _ => none) "/proxy?url=http://a".toList (by decide) (by decide)
  exact ⟨by decide, by decide,
    h.1 403 "HTTP Error 403: Forbidden".toList rfl,
    h.2.2.2 [⟨"OPTIONS", "/a".toList⟩] [⟨"GET", "/b".toList⟩]
      ⟨"GET", "/proxy?url=http://a".toList⟩⟩

/-- C10: a GET whose path starts with "/proxy" but not with the full literal
"/proxy?url=" (for example "/proxy.html" or "/proxy?other=1&url=x") is
handled by the static file server, yet the generic allow-origin injection is
skipped because end_headers tests the shorter prefix "/proxy", so the
response carries no CORS header at all. -/
theorem c10_proxyish_paths_no_cors (fetch : List Char → FetchOutcome)
    (fs : List Char → Option (String × List Nat)) (path : List Char)
    (hpre : startsWith proxyPathPre path = true)
    (hroute : startsWith proxyRoute path = false) :
    handleRequest fetch fs ⟨"GET", path⟩ = staticServe fs path ∧
    (∀ p ∈ (handleRequest fetch fs ⟨"GET", path⟩).headers,
      p.1 ≠ "Access-Control-Allow-Origin" ∧
      p.1 ≠ "Access-Control-Allow-Methods" ∧
      p.1 ≠ "Access-Control-Allow-Headers") := by
  have hd : handleRequest fetch fs ⟨"GET", path⟩ = staticServe fs path := by
    simp [handleRequest, do_GET, hroute]
  refine ⟨hd, ?_⟩
  rw [hd]
  intro p hp
  cases hfs : fs path with
  | some v =>
    rw [staticServe, hfs] at hp
    simp [endHeadersExtra, hpre] at hp
    simp [hp]
  | none =>
    rw [staticServe, hfs] at hp
    simp [send_error, endHeadersExtra, hpre, ctErrH, connCloseH] at hp
    rcases hp with h | h <;> simp [h]

/-- C10 witness: "/proxy.html" backed by an existing file is served
statically with no CORS headers among its response headers. -/
theorem c10_proxyish_paths_no_cors_witness :
    startsWith proxyPathPre "/proxy.html".toList = true ∧
    startsWith proxyRoute "/proxy.html".toList = false ∧
    (handleRequest (fun _ => .success 200 [9]) (fun _ => some ("text/html", [60]))
        ⟨"GET", "/proxy.html".toList⟩ =
      staticServe (fun _ => some ("text/html", [60])) "/proxy.html".toList ∧
    ∀ p ∈ (handleRequest (fun _ => .success 200 [9]) (fun _ => some ("text/html", [60]))
        ⟨"GET", "/proxy.html".toList⟩).headers,
      p.1 ≠ "Access-Control-Allow-Origin" ∧
      p.1 ≠ "Access-Control-Allow-Methods" ∧
      p.1 ≠ "Access-Control-Allow-Headers") :=
  ⟨by decide, by decide,
    c10_proxyish_paths_no_cors (fun _ => .success 200 [9])
      (fun _ => some ("text/html", [60])) "/proxy.html".toList
      (by decide) (by decide)⟩

end ProxyServer
